import Mathlib

/-!
Verification of the KoL game-session client (src/src/clients/kol.ts and the
legacy client in src/unnamed/part_003).

The HTTP transport is modelled as an oracle: a list of scripted
`HttpResult` events consumed in program order, one per issued HTTP call.
Each client operation is a pure function from client state and oracle to a
result carrying the returned value, the updated state, the remaining
oracle, and the trace of issued calls.  The async-mutex locks in the source
serialize the corresponding critical sections, so their sequential
composition is the faithful model of concurrent invocations.
-/

namespace Oaf

/-- Substring search helper over character lists: models the JavaScript
`String.prototype.includes` and `RegExp.test` with a literal pattern. -/
def hasSegAux (pat : List Char) : List Char → Bool
  | [] => pat.isEmpty
  | c :: rest => pat.isPrefixOf (c :: rest) || hasSegAux pat rest

/-- `hasSubstr s pat` is true when `pat` occurs contiguously in `s`. -/
def hasSubstr (s pat : String) : Bool :=
  hasSegAux pat.toList s.toList

/-- Models the regex test `/^https?:\/\//i` from `resolveKoLImage`
(kol.ts line 141): a case-insensitive `http://` or `https://` scheme test. -/
def isHttpUrl (s : String) : Bool :=
  ((s.toList.take 7).map Char.toLower == "http://".toList) ||
  ((s.toList.take 8).map Char.toLower == "https://".toList)

/-- The fixed image host prepended by `resolveKoLImage` (kol.ts line 143). -/
def imageRoot : String := "https://s3.amazonaws.com/images.kingdomofloathing.com"

/-- Models `path.replace(/^\/(iii|images)/, "")` (kol.ts line 144): the
anchored regex strips a leading `/iii` (tried first) or `/images`. -/
def stripImageDir (p : String) : String :=
  if "/iii".isPrefixOf p then p.drop 4
  else if "/images".isPrefixOf p then p.drop 7
  else p

/-- `resolveKoLImage` from kol.ts lines 140-147. -/
def resolveKoLImage (path : String) : String :=
  if isHttpUrl path then path
  else imageRoot ++ stripImageDir path

/-- An HTTP response as the client observes it: status code, the
`set-cookie` header list, the response body, and the `pwd` field of the
JSON payload when present (`apiResponse.data.pwd`). -/
structure HttpResponse where
  status : Nat
  setCookie : List String
  body : String
  pwd : Option String
  deriving DecidableEq

/-- Outcome of one issued HTTP call: a response, or a transport error
(a rejected axios promise). -/
inductive HttpResult where
  | ok (resp : HttpResponse)
  | netError
  deriving DecidableEq

/-- The oracle: scripted transport outcomes consumed in order.  An
exhausted oracle behaves as a transport error. -/
abbrev World := List HttpResult

/-- Trace entry for each issued HTTP call, tagged by endpoint. -/
inductive Call where
  | probe (params : List (String × String))
  | loginPost (fields : List (String × String))
  | statusGet (params : List (String × String))
  | rolloverProbe
  | page (url : String)
  deriving DecidableEq

/-- True exactly on `Call.page` entries. -/
def isPage : Call → Bool
  | Call.page _ => true
  | _ => false

/-- True exactly on `Call.loginPost` entries. -/
def isLoginPost : Call → Bool
  | Call.loginPost _ => true
  | _ => false

/-- The login form fields appended in the `KoLClient` constructor
(kol.ts lines 181-186); the legacy client builds the same five fields. -/
def loginParameters (username password : String) : List (String × String) :=
  [("loggingin", "Yup."),
   ("loginname", username),
   ("password", password),
   ("secure", "0"),
   ("submitbutton", "Log In")]

/-- Query parameters of the api.php status calls in `loggedIn` and `logIn`
(kol.ts lines 221-224 and 263-266). -/
def statusParams (username : String) : List (String × String) :=
  [("what", "status"), ("for", username ++ " Chatbot")]

/-- Models `cookie.split(";")[0]` (kol.ts line 254). -/
def cookieKeyValue (cookie : String) : String :=
  String.mk (cookie.toList.takeWhile (fun c => c != ';'))

/-- List joining with a separator; models `Array.prototype.join`. -/
def joinStrings (sep : String) : List String → String
  | [] => ""
  | [x] => x
  | x :: y :: rest => x ++ sep ++ joinStrings sep (y :: rest)

/-- Builds the session cookie header from `set-cookie` response headers
(kol.ts lines 253-255). -/
def joinCookies (setCookie : List String) : String :=
  joinStrings "; " (setCookie.map cookieKeyValue)

/-- Credentials of the current client (kol.ts lines 52-55). -/
structure KoLCredentials where
  sessionCookies : Option String
  pwdhash : Option String
  deriving DecidableEq

/-- Mutable state of a `KoLClient` relevant to session handling
(kol.ts lines 170-186). -/
structure ClientState where
  username : String
  password : String
  mockLoggedIn : Bool
  isRollover : Bool
  credentials : KoLCredentials
  postRolloverLatch : Bool
  deriving DecidableEq

/-- Result of the `loggedIn` validity probe. -/
structure ProbeResult where
  ok : Bool
  world : World
  calls : List Call
  deriving DecidableEq

/-- `KoLClient.loggedIn` (kol.ts lines 209-234).  With `mockLoggedIn` set it
answers true without any call.  Otherwise it issues the api.php status
probe with `validateStatus` accepting 302 and 200, answers
`status === 200`, and answers false on any thrown error (transport
failure or a status outside the accepted set).  The `!this.credentials`
check on line 211 can never fire (the field always holds an object) and
is not modelled. -/
def loggedIn (st : ClientState) (w : World) : ProbeResult :=
  if st.mockLoggedIn then ⟨true, w, []⟩
  else
    match w with
    | [] => ⟨false, [], [Call.probe (statusParams st.username)]⟩
    | HttpResult.netError :: rest => ⟨false, rest, [Call.probe (statusParams st.username)]⟩
    | HttpResult.ok resp :: rest =>
      if resp.status = 302 ∨ resp.status = 200 then
        ⟨decide (resp.status = 200), rest, [Call.probe (statusParams st.username)]⟩
      else
        ⟨false, rest, [Call.probe (statusParams st.username)]⟩

/-- The value the `loggedIn` probe derives from one transport outcome:
true exactly when a response with status 200 arrived. -/
def probeOk : HttpResult → Bool
  | HttpResult.ok resp => decide (resp.status = 200)
  | HttpResult.netError => false

/-- The maintenance banner test (kol.ts lines 411-414). -/
def rolloverBanner (body : String) : Bool :=
  hasSubstr body "The system is currently down for nightly maintenance"

/-- Result of one `rolloverCheck` probe. -/
structure RollResult where
  state : ClientState
  world : World
  calls : List Call
  deriving DecidableEq

/-- One probe of `KoLClient.rolloverCheck` (kol.ts lines 409-428): fetch the
root page under the axios default `validateStatus`, which throws on any
non-2xx status; a thrown error (transport failure or non-2xx response) is
caught at line 425 leaving the state untouched.  On a 2xx response the
banner test runs, `postRolloverLatch` rises on a rollover-to-up
transition, and the new rollover flag is recorded.  The `setTimeout`
rescheduling while rollover persists is external scheduling of further
calls of this same function and is not part of the single-probe
transition. -/
def rolloverCheck (st : ClientState) (w : World) : RollResult :=
  match w with
  | [] => ⟨st, [], [Call.rolloverProbe]⟩
  | HttpResult.netError :: rest => ⟨st, rest, [Call.rolloverProbe]⟩
  | HttpResult.ok resp :: rest =>
    if 200 ≤ resp.status ∧ resp.status ≤ 299 then
      let isR := rolloverBanner resp.body
      ⟨{ st with postRolloverLatch := st.postRolloverLatch || (st.isRollover && !isR),
                 isRollover := isR },
       rest, [Call.rolloverProbe]⟩
    else ⟨st, rest, [Call.rolloverProbe]⟩

/-- Result of `logIn`: the boolean answer, updated state, remaining oracle,
issued calls, and the number of `"rollover"` events emitted. -/
structure LoginResult where
  ok : Bool
  state : ClientState
  world : World
  calls : List Call
  rolloverEmits : Nat
  deriving DecidableEq

/-- `KoLClient.logIn` (kol.ts lines 236-284).  The body runs inside
`KoLClient.loginMutex.runExclusive`, so invocations are serialized; the
function models one critical section.  Steps: the `loggedIn` probe
short-circuits to true; then the rollover flag short-circuits to false;
then the handshake: a login.php POST accepted only on status 302, and an
api.php status GET accepted on 2xx (the axios default `validateStatus`),
after which the credentials are replaced with the joined cookies and
`apiResponse.data.pwd` and the rollover latch, when set, is consumed by
emitting one `"rollover"` event.  Any thrown error is caught: the state
is left as it was, `rolloverCheck` runs, and false is returned. -/
def logIn (st : ClientState) (w : World) : LoginResult :=
  let pr := loggedIn st w
  if pr.ok then ⟨true, st, pr.world, pr.calls, 0⟩
  else if st.isRollover then ⟨false, st, pr.world, pr.calls, 0⟩
  else
    match pr.world with
    | HttpResult.ok resp :: w2 =>
      if resp.status = 302 then
        let sessionCookies := joinCookies resp.setCookie
        match w2 with
        | HttpResult.ok resp2 :: w3 =>
          if 200 ≤ resp2.status ∧ resp2.status ≤ 299 then
            let st' := { st with credentials := ⟨some sessionCookies, resp2.pwd⟩ }
            if st.postRolloverLatch then
              ⟨true, { st' with postRolloverLatch := false }, w3,
                pr.calls ++ [Call.loginPost (loginParameters st.username st.password),
                  Call.statusGet (statusParams st.username)], 1⟩
            else
              ⟨true, st', w3,
                pr.calls ++ [Call.loginPost (loginParameters st.username st.password),
                  Call.statusGet (statusParams st.username)], 0⟩
          else
            let rc := rolloverCheck st w3
            ⟨false, rc.state, rc.world,
              pr.calls ++ [Call.loginPost (loginParameters st.username st.password),
                Call.statusGet (statusParams st.username)] ++ rc.calls, 0⟩
        | HttpResult.netError :: w3 =>
          let rc := rolloverCheck st w3
          ⟨false, rc.state, rc.world,
            pr.calls ++ [Call.loginPost (loginParameters st.username st.password),
              Call.statusGet (statusParams st.username)] ++ rc.calls, 0⟩
        | [] =>
          let rc := rolloverCheck st []
          ⟨false, rc.state, rc.world,
            pr.calls ++ [Call.loginPost (loginParameters st.username st.password),
              Call.statusGet (statusParams st.username)] ++ rc.calls, 0⟩
      else
        let rc := rolloverCheck st w2
        ⟨false, rc.state, rc.world,
          pr.calls ++ [Call.loginPost (loginParameters st.username st.password)] ++ rc.calls, 0⟩
    | HttpResult.netError :: w2 =>
      let rc := rolloverCheck st w2
      ⟨false, rc.state, rc.world,
        pr.calls ++ [Call.loginPost (loginParameters st.username st.password)] ++ rc.calls, 0⟩
    | [] =>
      let rc := rolloverCheck st []
      ⟨false, rc.state, rc.world,
        pr.calls ++ [Call.loginPost (loginParameters st.username st.password)] ++ rc.calls, 0⟩

/-- Result of `visitUrl`. -/
structure VisitResult where
  body : String
  state : ClientState
  world : World
  calls : List Call
  rolloverEmits : Nat
  deriving DecidableEq

/-- `KoLClient.visitUrl` (kol.ts lines 445-481): return the fallback when
the rollover flag is set or `logIn` answers false (the `||` short-circuits,
so no call at all is issued while the flag is set); otherwise issue the
POST to the requested page and return its body, or the fallback on a
thrown error (transport failure or non-2xx status under the default
`validateStatus`).  The body is returned as is: the current client never
inspects it for a logged-out signature and never retries.  The query
parameters and optional form body only shape the outbound request and do
not influence control flow; the trace records the target url. -/
def visitUrl (st : ClientState) (w : World) (url : String)
    (parameters : List (String × String)) (fallback : String) : VisitResult :=
  if st.isRollover then ⟨fallback, st, w, [], 0⟩
  else
    let L := logIn st w
    if L.ok then
      match L.world with
      | HttpResult.ok resp :: rest =>
        if 200 ≤ resp.status ∧ resp.status ≤ 299 then
          ⟨resp.body, L.state, rest, L.calls ++ [Call.page url], L.rolloverEmits⟩
        else
          ⟨fallback, L.state, rest, L.calls ++ [Call.page url], L.rolloverEmits⟩
      | HttpResult.netError :: rest =>
        ⟨fallback, L.state, rest, L.calls ++ [Call.page url], L.rolloverEmits⟩
      | [] => ⟨fallback, L.state, [], L.calls ++ [Call.page url], L.rolloverEmits⟩
    else ⟨fallback, L.state, L.world, L.calls, L.rolloverEmits⟩

/-- Result of the clan actions. -/
structure ActionResult where
  ok : Bool
  state : ClientState
  world : World
  calls : List Call
  rolloverEmits : Nat
  deriving DecidableEq

/-- `KoLClient.joinClan` (kol.ts lines 597-607): visit showclan.php and
report success when the body contains either membership marker. -/
def joinClan (st : ClientState) (w : World) (id : Nat) : ActionResult :=
  let r := visitUrl st w "showclan.php"
    [("whichclan", toString id), ("action", "joinclan"), ("confirm", "on")] ""
  ⟨hasSubstr r.body "clanhalltop.gif" || hasSubstr r.body "a clan you\x27re already in",
   r.state, r.world, r.calls, r.rolloverEmits⟩

/-- `KoLClient.addToWhitelist` (kol.ts lines 609-620).  The body runs inside
`actionMutex.runExclusive`; it models one critical section.  When
`joinClan` reports failure the whitelist visit is skipped and false is
returned; otherwise the clan_whitelist.php visit runs and true is
returned regardless of that visit result. -/
def addToWhitelist (st : ClientState) (w : World) (playerId clanId : Nat) : ActionResult :=
  let J := joinClan st w clanId
  if !J.ok then ⟨false, J.state, J.world, J.calls, J.rolloverEmits⟩
  else
    let r := visitUrl J.state J.world "clan_whitelist.php"
      [("addwho", toString playerId), ("level", "2"), ("title", ""), ("action", "add")] ""
    ⟨true, r.state, r.world, J.calls ++ r.calls, J.rolloverEmits + r.rolloverEmits⟩

/-- Result of iterated `logIn` calls. -/
structure MultiLogin where
  results : List Bool
  state : ClientState
  world : World
  calls : List Call
  deriving DecidableEq

/-- `n` callers of `logIn`.  `KoLClient.loginMutex` queues concurrent
callers, so the concurrent execution of `n` invocations is exactly this
sequential iteration of the critical section. -/
def logIns : Nat → ClientState → World → MultiLogin
  | 0, st, w => ⟨[], st, w, []⟩
  | n + 1, st, w =>
    let L := logIn st w
    let M := logIns n L.state L.world
    ⟨L.ok :: M.results, M.state, M.world, L.calls ++ M.calls⟩

/-- Credentials of the legacy client (part_003 lines 32-36). -/
structure KOLCredentials where
  fetched : Int
  sessionCookies : Option String
  pwdhash : Option String
  deriving DecidableEq

/-- Status-call parameters of the legacy client (part_003 lines 149-152). -/
def oldStatusParams : List (String × String) :=
  [("what", "status"), ("for", "OAF Discord bot for Kingdom of Loathing")]

/-- Result of the legacy `logIn`. -/
structure OldLoginResult where
  credentials : KOLCredentials
  world : World
  calls : List Call
  deriving DecidableEq

/-- Legacy `KOLClient.logIn` (part_003 lines 131-169): under the login
mutex, when the stored credentials are older than 60000 ms it performs
the handshake (login.php POST accepted only on 302, then the api.php
status GET) and on success replaces the credentials stamped with the
current time; any thrown error is swallowed leaving the credentials
untouched; fresh credentials skip the handshake entirely.  The two
`new Date().getTime()` reads are modelled by the single `now`. -/
def KOLClient.logIn (username password : String) (now : Int)
    (cred : KOLCredentials) (w : World) : OldLoginResult :=
  if cred.fetched < now - 60000 then
    match w with
    | HttpResult.ok resp :: w2 =>
      if resp.status = 302 then
        let sessionCookies := joinCookies resp.setCookie
        match w2 with
        | HttpResult.ok resp2 :: w3 =>
          if 200 ≤ resp2.status ∧ resp2.status ≤ 299 then
            ⟨⟨now, some sessionCookies, resp2.pwd⟩, w3,
              [Call.loginPost (loginParameters username password),
               Call.statusGet oldStatusParams]⟩
          else
            ⟨cred, w3,
              [Call.loginPost (loginParameters username password),
               Call.statusGet oldStatusParams]⟩
        | HttpResult.netError :: w3 =>
          ⟨cred, w3,
            [Call.loginPost (loginParameters username password),
             Call.statusGet oldStatusParams]⟩
        | [] =>
          ⟨cred, [],
            [Call.loginPost (loginParameters username password),
             Call.statusGet oldStatusParams]⟩
      else ⟨cred, w2, [Call.loginPost (loginParameters username password)]⟩
    | HttpResult.netError :: w2 => ⟨cred, w2, [Call.loginPost (loginParameters username password)]⟩
    | [] => ⟨cred, [], [Call.loginPost (loginParameters username password)]⟩
  else ⟨cred, w, []⟩

/-- The logged-out page signature of the legacy client (part_003 lines
184-186): the anonymous title page or the not-available notice. -/
def loggedOutBody (body : String) : Bool :=
  hasSubstr body "<title>The Kingdom of Loathing</title>" ||
  hasSubstr body "This script is not available unless you\x27re logged in."

/-- Result of a credentialed request of the legacy client. -/
structure ReqResult where
  body : Option String
  world : World
  calls : List Call
  deriving DecidableEq

/-- Legacy `KOLClient.makeCredentialedRequest` (part_003 lines 171-194):
issue the GET with the stored cookie and pwd; answer `none` on a thrown
error, an empty (falsy) body, or a body matching the logged-out
signature; otherwise answer the body. -/
def KOLClient.makeCredentialedRequest (cred : KOLCredentials) (url : String)
    (parameters : List (String × String)) (w : World) : ReqResult :=
  match w with
  | HttpResult.ok resp :: rest =>
    if 200 ≤ resp.status ∧ resp.status ≤ 299 then
      if resp.body == "" || loggedOutBody resp.body then ⟨none, rest, [Call.page url]⟩
      else ⟨some resp.body, rest, [Call.page url]⟩
    else ⟨none, rest, [Call.page url]⟩
  | HttpResult.netError :: rest => ⟨none, rest, [Call.page url]⟩
  | [] => ⟨none, [], [Call.page url]⟩

/-- Result of the legacy request-with-retry. -/
structure TryResult where
  body : String
  credentials : KOLCredentials
  world : World
  calls : List Call
  deriving DecidableEq

/-- Legacy `KOLClient.tryRequestWithLogin` (part_003 lines 196-201): issue
the credentialed request; when it answers a body, return it; otherwise
run `logIn` once and retry exactly once, returning the retry body or the
fixed fallback `""`. -/
def KOLClient.tryRequestWithLogin (username password : String) (now : Int)
    (cred : KOLCredentials) (url : String) (parameters : List (String × String))
    (w : World) : TryResult :=
  let r1 := KOLClient.makeCredentialedRequest cred url parameters w
  match r1.body with
  | some body => ⟨body, cred, r1.world, r1.calls⟩
  | none =>
    let L := KOLClient.logIn username password now cred r1.world
    let r2 := KOLClient.makeCredentialedRequest L.credentials url parameters L.world
    ⟨r2.body.getD "", L.credentials, r2.world, r1.calls ++ L.calls ++ r2.calls⟩

/-! Helper lemmas about the embedding. -/

theorem loggedIn_cons (st : ClientState) (e : HttpResult) (r : World)
    (h : st.mockLoggedIn = false) :
    loggedIn st (e :: r) = ⟨probeOk e, r, [Call.probe (statusParams st.username)]⟩ := by
  cases e with
  | netError => simp [loggedIn, h, probeOk]
  | ok resp =>
    by_cases h2 : resp.status = 302 ∨ resp.status = 200
    · simp [loggedIn, h, probeOk, h2]
    · push_neg at h2
      simp [loggedIn, h, probeOk, h2.1, h2.2]

theorem loggedIn_calls_cases (st : ClientState) (w : World) :
    (loggedIn st w).calls = [] ∨
      (loggedIn st w).calls = [Call.probe (statusParams st.username)] := by
  by_cases hm : st.mockLoggedIn
  · left; simp [loggedIn, hm]
  · cases w with
    | nil => right; simp [loggedIn, hm]
    | cons e r =>
      right
      rw [loggedIn_cons st e r (by simpa using hm)]

theorem loggedIn_world_suffix (st : ClientState) (w : World) :
    (loggedIn st w).world <:+ w := by
  by_cases hm : st.mockLoggedIn
  · simp [loggedIn, hm]
  · cases w with
    | nil => simp [loggedIn, hm]
    | cons e r =>
      rw [loggedIn_cons st e r (by simpa using hm)]
      exact List.suffix_cons e r

theorem rolloverCheck_credentials (st : ClientState) (w : World) :
    (rolloverCheck st w).state.credentials = st.credentials := by
  cases w with
  | nil => rfl
  | cons e rest =>
    cases e with
    | netError => rfl
    | ok resp =>
      by_cases h : 200 ≤ resp.status ∧ resp.status ≤ 299 <;> simp [rolloverCheck, h]

theorem rolloverCheck_calls (st : ClientState) (w : World) :
    (rolloverCheck st w).calls = [Call.rolloverProbe] := by
  cases w with
  | nil => rfl
  | cons e rest =>
    cases e with
    | netError => rfl
    | ok resp =>
      by_cases h : 200 ≤ resp.status ∧ resp.status ≤ 299 <;> simp [rolloverCheck, h]

theorem rolloverCheck_world_suffix (st : ClientState) (w : World) :
    (rolloverCheck st w).world <:+ w := by
  cases w with
  | nil => simp [rolloverCheck]
  | cons e rest =>
    cases e with
    | netError => simp [rolloverCheck]
    | ok resp =>
      by_cases h : 200 ≤ resp.status ∧ resp.status ≤ 299 <;> simp [rolloverCheck, h]

theorem logIn_probe_true (st : ClientState) (w : World)
    (h : (loggedIn st w).ok = true) :
    logIn st w = ⟨true, st, (loggedIn st w).world, (loggedIn st w).calls, 0⟩ := by
  simp [logIn, h]

theorem logIn_probe_valid (st : ClientState) (e : HttpResult) (rest : World)
    (hm : st.mockLoggedIn = false) (hp : probeOk e = true) :
    logIn st (e :: rest) = ⟨true, st, rest, [Call.probe (statusParams st.username)], 0⟩ := by
  have h := loggedIn_cons st e rest hm
  rw [logIn, h]
  simp [hp]

theorem logIn_handshake (st : ClientState) (e1 : HttpResult) (rL rS : HttpResponse)
    (rest : World)
    (hm : st.mockLoggedIn = false) (hr : st.isRollover = false)
    (hp : probeOk e1 = false) (hL : rL.status = 302)
    (hS1 : 200 ≤ rS.status) (hS2 : rS.status ≤ 299) :
    logIn st (e1 :: HttpResult.ok rL :: HttpResult.ok rS :: rest) =
      ⟨true,
       { st with credentials := ⟨some (joinCookies rL.setCookie), rS.pwd⟩,
                 postRolloverLatch := false },
       rest,
       [Call.probe (statusParams st.username),
        Call.loginPost (loginParameters st.username st.password),
        Call.statusGet (statusParams st.username)],
       if st.postRolloverLatch then 1 else 0⟩ := by
  have h := loggedIn_cons st e1 (HttpResult.ok rL :: HttpResult.ok rS :: rest) hm
  rw [logIn, h]
  cases hl : st.postRolloverLatch <;> simp [hp, hr, hL, hS1, hS2, hl]

theorem logIn_shape (st : ClientState) (w : World) :
    ((loggedIn st w).ok = true ∧
      logIn st w = ⟨true, st, (loggedIn st w).world, (loggedIn st w).calls, 0⟩) ∨
    ((loggedIn st w).ok = false ∧ st.isRollover = true ∧
      logIn st w = ⟨false, st, (loggedIn st w).world, (loggedIn st w).calls, 0⟩) ∨
    ((loggedIn st w).ok = false ∧ st.isRollover = false ∧
      ∃ resp resp2 rest,
        (loggedIn st w).world = HttpResult.ok resp :: HttpResult.ok resp2 :: rest ∧
        logIn st w = ⟨true,
          { st with credentials := ⟨some (joinCookies resp.setCookie), resp2.pwd⟩,
                    postRolloverLatch := false },
          rest,
          (loggedIn st w).calls ++
            [Call.loginPost (loginParameters st.username st.password),
             Call.statusGet (statusParams st.username)],
          if st.postRolloverLatch then 1 else 0⟩) ∨
    ((loggedIn st w).ok = false ∧ st.isRollover = false ∧
      ∃ mid t, t <:+ w ∧
        (mid = [Call.loginPost (loginParameters st.username st.password)] ∨
         mid = [Call.loginPost (loginParameters st.username st.password),
                Call.statusGet (statusParams st.username)]) ∧
        logIn st w = ⟨false, (rolloverCheck st t).state, (rolloverCheck st t).world,
          (loggedIn st w).calls ++ mid ++ (rolloverCheck st t).calls, 0⟩) := by
  by_cases hpr : (loggedIn st w).ok = true
  · exact Or.inl ⟨hpr, logIn_probe_true st w hpr⟩
  · have hpr' : (loggedIn st w).ok = false := by simpa using hpr
    have hsw := loggedIn_world_suffix st w
    cases hr : st.isRollover with
    | true =>
      refine Or.inr (Or.inl ⟨hpr', rfl, ?_⟩)
      simp [logIn, hpr', hr]
    | false =>
      rcases hw : (loggedIn st w).world with _ | ⟨e, w2⟩
      · refine Or.inr (Or.inr (Or.inr ⟨hpr', rfl,
          [Call.loginPost (loginParameters st.username st.password)], [],
          List.nil_suffix, Or.inl rfl, ?_⟩))
        simp [logIn, hpr', hr, hw]
      · rw [hw] at hsw
        have hsw2 : w2 <:+ w := (List.suffix_cons e w2).trans hsw
        cases e with
        | netError =>
          refine Or.inr (Or.inr (Or.inr ⟨hpr', rfl,
            [Call.loginPost (loginParameters st.username st.password)], w2,
            hsw2, Or.inl rfl, ?_⟩))
          simp [logIn, hpr', hr, hw]
        | ok resp =>
          by_cases h302 : resp.status = 302
          · rcases w2 with _ | ⟨e2, w3⟩
            · refine Or.inr (Or.inr (Or.inr ⟨hpr', rfl,
                [Call.loginPost (loginParameters st.username st.password),
                 Call.statusGet (statusParams st.username)], [],
                List.nil_suffix, Or.inr rfl, ?_⟩))
              simp [logIn, hpr', hr, hw, h302]
            · have hsw3 : w3 <:+ w := (List.suffix_cons e2 w3).trans hsw2
              cases e2 with
              | netError =>
                refine Or.inr (Or.inr (Or.inr ⟨hpr', rfl,
                  [Call.loginPost (loginParameters st.username st.password),
                   Call.statusGet (statusParams st.username)], w3,
                  hsw3, Or.inr rfl, ?_⟩))
                simp [logIn, hpr', hr, hw, h302]
              | ok resp2 =>
                by_cases h2xx : 200 ≤ resp2.status ∧ resp2.status ≤ 299
                · refine Or.inr (Or.inr (Or.inl ⟨hpr', rfl, resp, resp2, w3, rfl, ?_⟩))
                  cases hl : st.postRolloverLatch <;>
                    simp [logIn, hpr', hr, hw, h302, h2xx.1, h2xx.2, hl]
                · refine Or.inr (Or.inr (Or.inr ⟨hpr', rfl,
                    [Call.loginPost (loginParameters st.username st.password),
                     Call.statusGet (statusParams st.username)], w3,
                    hsw3, Or.inr rfl, ?_⟩))
                  simp only [logIn, hpr', hr, hw]
                  simp [h302, h2xx]
          · refine Or.inr (Or.inr (Or.inr ⟨hpr', rfl,
              [Call.loginPost (loginParameters st.username st.password)], w2,
              hsw2, Or.inl rfl, ?_⟩))
            simp [logIn, hpr', hr, hw, h302]

theorem logIn_world_suffix (st : ClientState) (w : World) :
    (logIn st w).world <:+ w := by
  rcases logIn_shape st w with ⟨_, heq⟩ | ⟨_, _, heq⟩ |
    ⟨_, _, resp, resp2, rest, hw, heq⟩ | ⟨_, _, mid, t, hts, _, heq⟩
  · rw [heq]; exact loggedIn_world_suffix st w
  · rw [heq]; exact loggedIn_world_suffix st w
  · rw [heq]
    have h1 := loggedIn_world_suffix st w
    rw [hw] at h1
    exact ((List.suffix_cons _ _).trans ((List.suffix_cons _ _).trans h1))
  · rw [heq]
    exact (rolloverCheck_world_suffix st t).trans hts

theorem logIn_no_page (st : ClientState) (w : World) (u : String) :
    Call.page u ∉ (logIn st w).calls := by
  intro hmem
  rcases logIn_shape st w with ⟨_, heq⟩ | ⟨_, _, heq⟩ |
    ⟨_, _, resp, resp2, rest, hw, heq⟩ | ⟨_, _, mid, t, hts, hmid, heq⟩
  · rw [heq] at hmem
    rcases loggedIn_calls_cases st w with hc | hc <;> simp [hc] at hmem
  · rw [heq] at hmem
    rcases loggedIn_calls_cases st w with hc | hc <;> simp [hc] at hmem
  · rw [heq] at hmem
    rcases loggedIn_calls_cases st w with hc | hc <;> simp [hc] at hmem
  · rw [heq] at hmem
    rcases loggedIn_calls_cases st w with hc | hc <;>
      rcases hmid with hm1 | hm1 <;>
        simp [hc, hm1, rolloverCheck_calls] at hmem

/-! Theorems settling the claims. -/

/-- Lemma for C10: everything the image resolver produces in its rewrite
branch carries the https scheme of `imageRoot`. -/
theorem isHttpUrl_imageRoot (x : String) : isHttpUrl (imageRoot ++ x) = true := by
  have h1 : (imageRoot ++ x).toList = imageRoot.toList ++ x.toList := rfl
  have h2 : (imageRoot.toList ++ x.toList).take 8 = imageRoot.toList.take 8 := by
    rw [List.take_append_eq_append_take]
    have h0 : 8 - imageRoot.toList.length = 0 := by decide
    rw [h0]
    simp
  unfold isHttpUrl
  rw [h1, h2]
  have h3 : ((imageRoot.toList.take 8).map Char.toLower == "https://".toList) = true := by
    decide
  rw [h3, Bool.or_true]

/-- C10: `resolveKoLImage` is idempotent; a path already carrying an http or
https scheme is returned unchanged, and any rewritten path starts with the
https `imageRoot`, so a second application returns it unchanged. -/
theorem c10_resolveKoLImage_idem (p : String) :
    resolveKoLImage (resolveKoLImage p) = resolveKoLImage p := by
  by_cases h : isHttpUrl p
  · simp [resolveKoLImage, h]
  · simp [resolveKoLImage, h, isHttpUrl_imageRoot]

/-- C4: when the `loggedIn` probe answers true, `logIn` returns true with
the state (hence the credential store) unchanged, having issued no
login-endpoint POST: its calls are exactly the probe calls. -/
theorem c4_valid_probe_short_circuits (st : ClientState) (w : World)
    (h : (loggedIn st w).ok = true) :
    logIn st w = ⟨true, st, (loggedIn st w).world, (loggedIn st w).calls, 0⟩ ∧
    ∀ f, Call.loginPost f ∉ (logIn st w).calls := by
  have heq := logIn_probe_true st w h
  refine ⟨heq, ?_⟩
  intro f hf
  rw [heq] at hf
  rcases loggedIn_calls_cases st w with hc | hc <;> simp [hc] at hf

/-- Witness for C4 at a concrete state and oracle. -/
theorem c4_witness :
    logIn ⟨"u", "p", false, false, ⟨some "c", some "pw"⟩, false⟩
        [HttpResult.ok ⟨200, [], "", none⟩] =
      ⟨true, ⟨"u", "p", false, false, ⟨some "c", some "pw"⟩, false⟩,
       (loggedIn ⟨"u", "p", false, false, ⟨some "c", some "pw"⟩, false⟩
         [HttpResult.ok ⟨200, [], "", none⟩]).world,
       (loggedIn ⟨"u", "p", false, false, ⟨some "c", some "pw"⟩, false⟩
         [HttpResult.ok ⟨200, [], "", none⟩]).calls, 0⟩ ∧
    ∀ f, Call.loginPost f ∉
      (logIn ⟨"u", "p", false, false, ⟨some "c", some "pw"⟩, false⟩
        [HttpResult.ok ⟨200, [], "", none⟩]).calls :=
  c4_valid_probe_short_circuits _ _ (by decide)

/-- C2 counterexample: a 2xx status response whose JSON payload lacks the
`pwd` token is not treated as a failure: `logIn` replaces the credentials
(with an absent token), triggers no rollover probe, and returns true,
contradicting the claim that a missing token leaves the credentials
untouched, probes, and returns false. -/
theorem c2_counterexample :
    let r := logIn ⟨"u", "p", false, false, ⟨some "c", some "pw"⟩, false⟩
      [HttpResult.ok ⟨302, [], "", none⟩,
       HttpResult.ok ⟨302, ["k=v; HttpOnly"], "", none⟩,
       HttpResult.ok ⟨200, [], "", none⟩]
    r.ok = true ∧ r.state.credentials = ⟨some "k=v", none⟩ ∧
      Call.rolloverProbe ∉ r.calls := by decide

/-- C2 amended: every execution of `logIn` that returns false leaves the
stored credentials exactly as they were, and unless it was the rollover
short-circuit it has triggered the maintenance probe (`rolloverCheck`).
Failures that raise inside the handshake, that is a network error or an
unexpected HTTP status on either call, always take this path; a 2xx
status response missing the token is treated as a successful handshake
instead. -/
theorem c2_amended (st : ClientState) (w : World) (h : (logIn st w).ok = false) :
    (logIn st w).state.credentials = st.credentials ∧
      (st.isRollover = false → Call.rolloverProbe ∈ (logIn st w).calls) := by
  rcases logIn_shape st w with ⟨_, heq⟩ | ⟨_, hr, heq⟩ |
    ⟨_, _, resp, resp2, rest, hw, heq⟩ | ⟨_, _, mid, t, _, hmid, heq⟩
  · rw [heq] at h; exact absurd h (by simp)
  · rw [heq]
    refine ⟨rfl, fun hc => ?_⟩
    rw [hc] at hr
    exact absurd hr (by simp)
  · rw [heq] at h; exact absurd h (by simp)
  · rw [heq]
    refine ⟨rolloverCheck_credentials st t, fun _ => ?_⟩
    simp [rolloverCheck_calls]

/-- Witness for C2 amended: an exhausted transport (network failure on the
handshake POST) leaves the credentials in place and probes for rollover. -/
theorem c2_witness :
    (logIn ⟨"u", "p", false, false, ⟨some "c", some "pw"⟩, false⟩ []).state.credentials =
        (⟨"u", "p", false, false, ⟨some "c", some "pw"⟩, false⟩ : ClientState).credentials ∧
      ((⟨"u", "p", false, false, ⟨some "c", some "pw"⟩, false⟩ : ClientState).isRollover = false →
        Call.rolloverProbe ∈
          (logIn ⟨"u", "p", false, false, ⟨some "c", some "pw"⟩, false⟩ []).calls) :=
  c2_amended _ _ (by decide)

/-- C3 counterexample: while the rollover flag is set, `logIn` checks the
validity probe first, so a probe that reports the session valid makes
`logIn` return true, contradicting the claim that every `logIn` call
returns false during maintenance. -/
theorem c3_counterexample :
    (logIn ⟨"u", "p", false, true, ⟨some "c", some "pw"⟩, false⟩
      [HttpResult.ok ⟨200, [], "", none⟩]).ok = true := by decide

/-- C3 amended: while the rollover flag is set, `visitUrl` returns its
fallback without issuing any HTTP call, and `logIn` never issues the
login-endpoint POST; `logIn` returns exactly what the validity probe
answers, so it returns false unless the probe reports the current
credentials still valid. -/
theorem c3_amended (st : ClientState) (w : World) (url : String)
    (parameters : List (String × String)) (fallback : String)
    (h : st.isRollover = true) :
    visitUrl st w url parameters fallback = ⟨fallback, st, w, [], 0⟩ ∧
    (∀ f, Call.loginPost f ∉ (logIn st w).calls) ∧
    (logIn st w).ok = (loggedIn st w).ok := by
  refine ⟨by simp [visitUrl, h], ?_, ?_⟩
  · rcases logIn_shape st w with ⟨_, heq⟩ | ⟨_, _, heq⟩ | ⟨_, hr, _⟩ | ⟨_, hr, _⟩
    · intro f hf
      rw [heq] at hf
      rcases loggedIn_calls_cases st w with hc | hc <;> simp [hc] at hf
    · intro f hf
      rw [heq] at hf
      rcases loggedIn_calls_cases st w with hc | hc <;> simp [hc] at hf
    · rw [h] at hr; exact absurd hr (by simp)
    · rw [h] at hr; exact absurd hr (by simp)
  · rcases logIn_shape st w with ⟨hA, heq⟩ | ⟨hA, _, heq⟩ | ⟨_, hr, _⟩ | ⟨_, hr, _⟩
    · rw [heq, hA]
    · rw [heq, hA]
    · rw [h] at hr; exact absurd hr (by simp)
    · rw [h] at hr; exact absurd hr (by simp)

/-- Witness for C3 amended at a concrete maintenance state. -/
theorem c3_witness :
    visitUrl ⟨"u", "p", false, true, ⟨none, none⟩, false⟩ [HttpResult.netError]
        "test.php" [] "FB" =
      ⟨"FB", ⟨"u", "p", false, true, ⟨none, none⟩, false⟩, [HttpResult.netError], [], 0⟩ ∧
    (∀ f, Call.loginPost f ∉
      (logIn ⟨"u", "p", false, true, ⟨none, none⟩, false⟩ [HttpResult.netError]).calls) ∧
    (logIn ⟨"u", "p", false, true, ⟨none, none⟩, false⟩ [HttpResult.netError]).ok =
      (loggedIn ⟨"u", "p", false, true, ⟨none, none⟩, false⟩ [HttpResult.netError]).ok :=
  c3_amended _ _ _ _ _ (by decide)

/-- C5 counterexample: with the rollover latch set, a `logIn` that succeeds
through the validity probe emits no rollover event and leaves the latch
set, contradicting the claim that the very next successful `logIn` emits
the event exactly once and clears the latch. -/
theorem c5_counterexample :
    let r := logIn ⟨"u", "p", false, false, ⟨some "c", some "pw"⟩, true⟩
      [HttpResult.ok ⟨200, [], "", none⟩]
    r.ok = true ∧ r.rolloverEmits = 0 ∧ r.state.postRolloverLatch = true := by decide

/-- C5 amended: a `rolloverCheck` probe that is answered (2xx status) and
no longer shows the banner while the rollover flag is set raises the
one-shot latch and clears the flag; the next `logIn` that succeeds
through the handshake (not through the validity probe) emits the rollover
event exactly once and clears the latch; and no `logIn` emits the event
while the latch is down. -/
theorem c5_amended :
    (∀ st resp rest, st.isRollover = true →
       200 ≤ resp.status → resp.status ≤ 299 → rolloverBanner resp.body = false →
       (rolloverCheck st (HttpResult.ok resp :: rest)).state.postRolloverLatch = true ∧
       (rolloverCheck st (HttpResult.ok resp :: rest)).state.isRollover = false) ∧
    (∀ st w, st.postRolloverLatch = true → (loggedIn st w).ok = false →
       (logIn st w).ok = true →
       (logIn st w).rolloverEmits = 1 ∧ (logIn st w).state.postRolloverLatch = false) ∧
    (∀ st w, st.postRolloverLatch = false → (logIn st w).rolloverEmits = 0) := by
  refine ⟨?_, ?_, ?_⟩
  · intro st resp rest h1 h2a h2b h3
    simp [rolloverCheck, h1, h2a, h2b, h3]
  · intro st w h1 h2 h3
    rcases logIn_shape st w with ⟨hA, _⟩ | ⟨_, _, heq⟩ |
      ⟨_, _, resp, resp2, rest, hw, heq⟩ | ⟨_, _, mid, t, _, _, heq⟩
    · simp [hA] at h2
    · rw [heq] at h3; exact absurd h3 (by simp)
    · rw [heq]; simp [h1]
    · rw [heq] at h3; exact absurd h3 (by simp)
  · intro st w h1
    rcases logIn_shape st w with ⟨_, heq⟩ | ⟨_, _, heq⟩ |
      ⟨_, _, resp, resp2, rest, hw, heq⟩ | ⟨_, _, mid, t, _, _, heq⟩ <;>
      simp [heq, h1]

/-- Witness for C5 amended: the latch rises on a down-to-up probe, a
handshake success with the latch set emits once and clears it, and a
latch-down login emits nothing. -/
theorem c5_witness :
    ((rolloverCheck ⟨"u", "p", false, true, ⟨none, none⟩, false⟩
        [HttpResult.ok ⟨200, [], "back up", none⟩]).state.postRolloverLatch = true ∧
      (rolloverCheck ⟨"u", "p", false, true, ⟨none, none⟩, false⟩
        [HttpResult.ok ⟨200, [], "back up", none⟩]).state.isRollover = false) ∧
    ((logIn ⟨"u", "p", false, false, ⟨none, none⟩, true⟩
        [HttpResult.ok ⟨302, [], "", none⟩, HttpResult.ok ⟨302, ["s=1"], "", none⟩,
         HttpResult.ok ⟨200, [], "", some "tok"⟩]).rolloverEmits = 1 ∧
      (logIn ⟨"u", "p", false, false, ⟨none, none⟩, true⟩
        [HttpResult.ok ⟨302, [], "", none⟩, HttpResult.ok ⟨302, ["s=1"], "", none⟩,
         HttpResult.ok ⟨200, [], "", some "tok"⟩]).state.postRolloverLatch = false) ∧
    (logIn ⟨"u", "p", false, false, ⟨none, none⟩, false⟩ []).rolloverEmits = 0 :=
  ⟨c5_amended.1 _ _ [] (by decide) (by decide) (by decide) (by decide),
   c5_amended.2.1 _ _ (by decide) (by decide) (by decide),
   c5_amended.2.2 _ _ (by decide)⟩

/-- C6 counterexample: the login POST carries five form fields, not four;
besides username, password and the submit marker there are two fixed
literals (`loggingin=Yup.` and `secure=0`). -/
theorem c6_counterexample :
    (loginParameters "u" "p").length = 5 ∧ ¬(loginParameters "u" "p").length = 4 := by
  decide

/-- C6 amended: the handshake POSTs exactly the five constructor fields to
the login endpoint, accepts only a 302 redirect as success (any other
status on the login POST makes `logIn` fail), and on success obtains the
token via the status call whose parameters include `what=status`, storing
the `pwd` field of its JSON response as the credential token. -/
theorem c6_amended :
    (∀ u pw, loginParameters u pw =
       [("loggingin", "Yup."), ("loginname", u), ("password", pw),
        ("secure", "0"), ("submitbutton", "Log In")] ∧
       (loginParameters u pw).length = 5 ∧
       ("what", "status") ∈ statusParams u) ∧
    (∀ st e1 resp rest, st.mockLoggedIn = false → st.isRollover = false →
       probeOk e1 = false → ¬resp.status = 302 →
       (logIn st (e1 :: HttpResult.ok resp :: rest)).ok = false) ∧
    (∀ st e1 rL rS rest, st.mockLoggedIn = false → st.isRollover = false →
       probeOk e1 = false → rL.status = 302 → 200 ≤ rS.status → rS.status ≤ 299 →
       (logIn st (e1 :: HttpResult.ok rL :: HttpResult.ok rS :: rest)).calls =
         [Call.probe (statusParams st.username),
          Call.loginPost (loginParameters st.username st.password),
          Call.statusGet (statusParams st.username)] ∧
       (logIn st (e1 :: HttpResult.ok rL :: HttpResult.ok rS :: rest)).state.credentials =
         ⟨some (joinCookies rL.setCookie), rS.pwd⟩) := by
  refine ⟨fun u pw => ⟨rfl, rfl, by simp [statusParams]⟩, ?_, ?_⟩
  · intro st e1 resp rest hm hr hp h302
    rw [logIn, loggedIn_cons st e1 _ hm]
    simp [hp, hr, h302]
  · intro st e1 rL rS rest hm hr hp hL h1 h2
    rw [logIn_handshake st e1 rL rS rest hm hr hp hL h1 h2]
    exact ⟨rfl, rfl⟩

/-- Witness for C6 amended at concrete inputs: a non-redirect login
response fails, and a full handshake records exactly the probe, POST and
status calls and stores the token. -/
theorem c6_witness :
    (loginParameters "u" "p" =
       [("loggingin", "Yup."), ("loginname", "u"), ("password", "p"),
        ("secure", "0"), ("submitbutton", "Log In")] ∧
      (loginParameters "u" "p").length = 5 ∧
      ("what", "status") ∈ statusParams "u") ∧
    (logIn ⟨"u", "p", false, false, ⟨none, none⟩, false⟩
      [HttpResult.netError, HttpResult.ok ⟨200, [], "", none⟩]).ok = false ∧
    ((logIn ⟨"u", "p", false, false, ⟨none, none⟩, false⟩
        [HttpResult.netError, HttpResult.ok ⟨302, ["a=b"], "", none⟩,
         HttpResult.ok ⟨200, [], "", some "tok"⟩]).calls =
       [Call.probe (statusParams "u"), Call.loginPost (loginParameters "u" "p"),
        Call.statusGet (statusParams "u")] ∧
     (logIn ⟨"u", "p", false, false, ⟨none, none⟩, false⟩
        [HttpResult.netError, HttpResult.ok ⟨302, ["a=b"], "", none⟩,
         HttpResult.ok ⟨200, [], "", some "tok"⟩]).state.credentials =
       ⟨some (joinCookies ["a=b"]), some "tok"⟩) :=
  ⟨c6_amended.1 "u" "p",
   c6_amended.2.1 _ HttpResult.netError ⟨200, [], "", none⟩ []
     (by decide) (by decide) (by decide) (by decide),
   c6_amended.2.2 _ HttpResult.netError ⟨302, ["a=b"], "", none⟩ ⟨200, [], "", some "tok"⟩ []
     (by decide) (by decide) (by decide) (by decide) (by decide) (by decide)⟩

/-- C7: `visitUrl` never lets a failure escape: for every state and
transport script it terminates with either the caller-supplied fallback or
the body of a response the transport actually delivered (and `logIn`, by
construction of the embedding, always terminates with a boolean). -/
theorem c7_failures_absorbed (st : ClientState) (w : World) (url : String)
    (parameters : List (String × String)) (fallback : String) :
    (visitUrl st w url parameters fallback).body = fallback ∨
    ∃ resp, HttpResult.ok resp ∈ w ∧
      (visitUrl st w url parameters fallback).body = resp.body := by
  by_cases hr : st.isRollover
  · left; simp [visitUrl, hr]
  · have hr' : st.isRollover = false := by simpa using hr
    by_cases hok : (logIn st w).ok = true
    · have hsf := logIn_world_suffix st w
      rcases hw : (logIn st w).world with _ | ⟨e, rest⟩
      · left; simp [visitUrl, hr', hok, hw]
      · cases e with
        | netError => left; simp [visitUrl, hr', hok, hw]
        | ok resp =>
          by_cases h2 : 200 ≤ resp.status ∧ resp.status ≤ 299
          · right
            refine ⟨resp, ?_, ?_⟩
            · rw [hw] at hsf
              exact hsf.subset (List.mem_cons_self _ _)
            · simp [visitUrl, hr', hok, hw, h2.1, h2.2]
          · left
            simp only [visitUrl]
            simp [hr', hok, hw, h2]
    · have hok' : (logIn st w).ok = false := by simpa using hok
      left
      simp [visitUrl, hr', hok']

/-- The calls a `visitUrl` issues: none during rollover, the login calls on
a failed login, and the login calls followed by the one page request
otherwise. -/
theorem visitUrl_calls_shape (st : ClientState) (w : World) (url : String)
    (parameters : List (String × String)) (fallback : String) :
    (visitUrl st w url parameters fallback).calls = [] ∨
    (visitUrl st w url parameters fallback).calls = (logIn st w).calls ∨
    (visitUrl st w url parameters fallback).calls =
      (logIn st w).calls ++ [Call.page url] := by
  by_cases hr : st.isRollover
  · left; simp [visitUrl, hr]
  · have hr' : st.isRollover = false := by simpa using hr
    by_cases hok : (logIn st w).ok = true
    · right; right
      rcases hw : (logIn st w).world with _ | ⟨e, rest⟩
      · simp [visitUrl, hr', hok, hw]
      · cases e with
        | netError => simp [visitUrl, hr', hok, hw]
        | ok resp =>
          by_cases h2 : 200 ≤ resp.status ∧ resp.status ≤ 299
          · simp [visitUrl, hr', hok, hw, h2.1, h2.2]
          · simp only [visitUrl]
            simp [hr', hok, hw, h2]
    · right; left
      have hok' : (logIn st w).ok = false := by simpa using hok
      simp [visitUrl, hr', hok']

/-- A page call in a `visitUrl` trace always targets the url of that visit. -/
theorem visitUrl_page_mem (st : ClientState) (w : World) (url u : String)
    (parameters : List (String × String)) (fallback : String)
    (h : Call.page u ∈ (visitUrl st w url parameters fallback).calls) : u = url := by
  rcases visitUrl_calls_shape st w url parameters fallback with hc | hc | hc <;> rw [hc] at h
  · simp at h
  · exact absurd h (logIn_no_page st w u)
  · rcases List.mem_append.mp h with h1 | h1
    · exact absurd h1 (logIn_no_page st w u)
    · simpa using h1

/-- When rollover is down and the login succeeds, `visitUrl` does issue its
page request. -/
theorem visitUrl_issues_page (st : ClientState) (w : World) (url : String)
    (parameters : List (String × String)) (fallback : String)
    (h1 : st.isRollover = false) (h2 : (logIn st w).ok = true) :
    Call.page url ∈ (visitUrl st w url parameters fallback).calls := by
  rcases hw : (logIn st w).world with _ | ⟨e, rest⟩
  · simp [visitUrl, h1, h2, hw]
  · cases e with
    | netError => simp [visitUrl, h1, h2, hw]
    | ok resp =>
      by_cases h3 : 200 ≤ resp.status ∧ resp.status ≤ 299
      · simp [visitUrl, h1, h2, hw, h3.1, h3.2]
      · simp only [visitUrl]
        simp [h1, h2, hw, h3]

/-- C9 counterexample: `joinClan` can succeed while the follow-up
whitelist visit is short-circuited (here: the session has expired and the
re-login hits a network error), so `addToWhitelist` returns true having
issued no clan_whitelist.php request, contradicting the claim that a
successful join is followed by the add request. -/
theorem c9_counterexample :
    let r := addToWhitelist ⟨"u", "p", false, false, ⟨some "c", some "pw"⟩, false⟩
      [HttpResult.ok ⟨200, [], "", none⟩,
       HttpResult.ok ⟨200, [], "clanhalltop.gif", none⟩,
       HttpResult.ok ⟨302, [], "", none⟩,
       HttpResult.netError] 5 6
    r.ok = true ∧ Call.page "clan_whitelist.php" ∉ r.calls := by decide

/-- C9 amended: when `joinClan` fails, `addToWhitelist` returns false and
never issues the whitelist-add request; when `joinClan` succeeds it
returns true and attempts the whitelist visit, which issues the add
request whenever it is not itself short-circuited (rollover down and its
login succeeding). -/
theorem c9_amended (st : ClientState) (w : World) (playerId clanId : Nat) :
    ((joinClan st w clanId).ok = false →
       (addToWhitelist st w playerId clanId).ok = false ∧
       Call.page "clan_whitelist.php" ∉ (addToWhitelist st w playerId clanId).calls) ∧
    ((joinClan st w clanId).ok = true →
       (addToWhitelist st w playerId clanId).ok = true) ∧
    ((joinClan st w clanId).ok = true →
       (joinClan st w clanId).state.isRollover = false →
       (logIn (joinClan st w clanId).state (joinClan st w clanId).world).ok = true →
       Call.page "clan_whitelist.php" ∈ (addToWhitelist st w playerId clanId).calls) := by
  refine ⟨?_, ?_, ?_⟩
  · intro h
    refine ⟨by simp [addToWhitelist, h], ?_⟩
    intro hmem
    have hcalls : (addToWhitelist st w playerId clanId).calls =
        (joinClan st w clanId).calls := by
      simp [addToWhitelist, h]
    rw [hcalls] at hmem
    have hjc : (joinClan st w clanId).calls =
        (visitUrl st w "showclan.php"
          [("whichclan", toString clanId), ("action", "joinclan"), ("confirm", "on")]
          "").calls := rfl
    rw [hjc] at hmem
    have := visitUrl_page_mem st w "showclan.php" "clan_whitelist.php" _ _ hmem
    simp at this
  · intro h
    simp [addToWhitelist, h]
  · intro h h1 h2
    have hcalls : (addToWhitelist st w playerId clanId).calls =
        (joinClan st w clanId).calls ++
          (visitUrl (joinClan st w clanId).state (joinClan st w clanId).world
            "clan_whitelist.php"
            [("addwho", toString playerId), ("level", "2"), ("title", ""), ("action", "add")]
            "").calls := by
      simp [addToWhitelist, h]
    rw [hcalls]
    exact List.mem_append_right _ (visitUrl_issues_page _ _ _ _ _ h1 h2)

/-- Witness for C9 amended: a failed join issues no add request; a join
followed by a live session issues it. -/
theorem c9_witness :
    ((addToWhitelist ⟨"u", "p", false, false, ⟨some "c", some "pw"⟩, false⟩
        [HttpResult.ok ⟨200, [], "", none⟩, HttpResult.ok ⟨200, [], "denied", none⟩]
        5 6).ok = false ∧
      Call.page "clan_whitelist.php" ∉
        (addToWhitelist ⟨"u", "p", false, false, ⟨some "c", some "pw"⟩, false⟩
          [HttpResult.ok ⟨200, [], "", none⟩, HttpResult.ok ⟨200, [], "denied", none⟩]
          5 6).calls) ∧
    Call.page "clan_whitelist.php" ∈
      (addToWhitelist ⟨"u", "p", false, false, ⟨some "c", some "pw"⟩, false⟩
        [HttpResult.ok ⟨200, [], "", none⟩,
         HttpResult.ok ⟨200, [], "clanhalltop.gif", none⟩,
         HttpResult.ok ⟨200, [], "", none⟩,
         HttpResult.ok ⟨200, [], "done", none⟩] 5 6).calls :=
  ⟨(c9_amended _ _ 5 6).1 (by decide),
   (c9_amended _ _ 5 6).2.2 (by decide) (by decide) (by decide)⟩

/-- Probe-call traces contain no login POST. -/
theorem countP_isLoginPost_probes (l : List HttpResult) (u : String) :
    (l.map (fun _ => Call.probe (statusParams u))).countP isLoginPost = 0 := by
  induction l with
  | nil => rfl
  | cons e rest ih => simp [List.countP_cons, isLoginPost, ih]

/-- Once the credentials are fresh, every further serialized `logIn` caller
is answered true by the validity probe alone, leaving the state untouched
and issuing one probe per caller. -/
theorem logIns_probe_valid (probes : List HttpResult) (st : ClientState)
    (hm : st.mockLoggedIn = false) (hall : ∀ e ∈ probes, probeOk e = true) :
    logIns probes.length st probes =
      ⟨List.replicate probes.length true, st, [],
       probes.map (fun _ => Call.probe (statusParams st.username))⟩ := by
  induction probes with
  | nil => simp [logIns]
  | cons e rest ih =>
    have he : probeOk e = true := hall e (List.mem_cons_self e rest)
    have hrest : ∀ x ∈ rest, probeOk x = true := fun x hx => hall x (List.mem_cons_of_mem e hx)
    simp [logIns, logIn_probe_valid st e rest hm he, ih hrest, List.replicate_succ]

/-- C8: with invalid credentials (failing probe) and a succeeding remote
handshake, `probes.length + 1` serialized `logIn` callers — the
serialization is exactly what `KoLClient.loginMutex` enforces — all
resolve true while exactly one login POST is issued; the later callers are
answered by the validity probe against the refreshed credentials. -/
theorem c8_single_handshake (st : ClientState) (e1 : HttpResult) (rL rS : HttpResponse)
    (probes : World)
    (hm : st.mockLoggedIn = false) (hr : st.isRollover = false)
    (hp : probeOk e1 = false) (hL : rL.status = 302)
    (hS1 : 200 ≤ rS.status) (hS2 : rS.status ≤ 299)
    (hprobes : ∀ e ∈ probes, probeOk e = true) :
    (logIns (probes.length + 1) st
        (e1 :: HttpResult.ok rL :: HttpResult.ok rS :: probes)).results =
      List.replicate (probes.length + 1) true ∧
    (logIns (probes.length + 1) st
        (e1 :: HttpResult.ok rL :: HttpResult.ok rS :: probes)).calls.countP isLoginPost = 1 ∧
    (logIns (probes.length + 1) st
        (e1 :: HttpResult.ok rL :: HttpResult.ok rS :: probes)).world = [] := by
  have h1 := logIn_handshake st e1 rL rS probes hm hr hp hL hS1 hS2
  have h2 := logIns_probe_valid probes
    { st with credentials := ⟨some (joinCookies rL.setCookie), rS.pwd⟩,
              postRolloverLatch := false } (by simpa using hm) hprobes
  refine ⟨?_, ?_, ?_⟩ <;>
    simp [logIns, h1, h2, List.replicate_succ, List.countP_cons, List.countP_append,
      isLoginPost, countP_isLoginPost_probes]

/-- Witness for C8 with three callers and two follow-up probes. -/
theorem c8_witness :
    (logIns 3 ⟨"u", "p", false, false, ⟨none, none⟩, false⟩
        [HttpResult.ok ⟨302, [], "", none⟩, HttpResult.ok ⟨302, ["s=1"], "", none⟩,
         HttpResult.ok ⟨200, [], "", some "tok"⟩,
         HttpResult.ok ⟨200, [], "", none⟩, HttpResult.ok ⟨200, [], "", none⟩]).results =
      List.replicate 3 true ∧
    (logIns 3 ⟨"u", "p", false, false, ⟨none, none⟩, false⟩
        [HttpResult.ok ⟨302, [], "", none⟩, HttpResult.ok ⟨302, ["s=1"], "", none⟩,
         HttpResult.ok ⟨200, [], "", some "tok"⟩,
         HttpResult.ok ⟨200, [], "", none⟩, HttpResult.ok ⟨200, [], "", none⟩]).calls.countP
      isLoginPost = 1 ∧
    (logIns 3 ⟨"u", "p", false, false, ⟨none, none⟩, false⟩
        [HttpResult.ok ⟨302, [], "", none⟩, HttpResult.ok ⟨302, ["s=1"], "", none⟩,
         HttpResult.ok ⟨200, [], "", some "tok"⟩,
         HttpResult.ok ⟨200, [], "", none⟩, HttpResult.ok ⟨200, [], "", none⟩]).world = [] :=
  c8_single_handshake _ (HttpResult.ok ⟨302, [], "", none⟩) ⟨302, ["s=1"], "", none⟩
    ⟨200, [], "", some "tok"⟩
    [HttpResult.ok ⟨200, [], "", none⟩, HttpResult.ok ⟨200, [], "", none⟩]
    (by decide) (by decide) (by decide) (by decide) (by decide) (by decide) (by decide)

/-- C1 counterexample: in the current client, `visitUrl` performs no
logged-out classification and no retry: handed a first response whose
body matches the logged-out signature, it returns that first body (not a
retried second body, not the fallback), issuing one page call and zero
login POSTs, contradicting the claimed exactly-one-re-login-and-retry. -/
theorem c1_counterexample :
    let r := visitUrl ⟨"u", "p", false, false, ⟨some "c", some "pw"⟩, false⟩
      [HttpResult.ok ⟨200, [], "", none⟩,
       HttpResult.ok ⟨200, [], "<title>The Kingdom of Loathing</title>", none⟩]
      "test.php" [] "FB"
    r.body = "<title>The Kingdom of Loathing</title>" ∧
    loggedOutBody r.body = true ∧
    r.calls.countP isLoginPost = 0 ∧
    r.calls.countP isPage = 1 := by decide

/-- C1 amended: the single-retry contract holds of the legacy
`tryRequestWithLogin` with its fixed fallback `""`: when the first
credentialed call is 2xx but its body classifies as logged-out and the
re-login is due and succeeds, exactly one re-login and exactly one retry
happen (two page calls and one login POST in total, plus the status call of the handshake), the refreshed credentials are stored, and the result is the body
of the second response, or `""` when the retry again classifies as
logged-out (or is empty). -/
theorem c1_amended (u pw : String) (now : Int) (cred : KOLCredentials) (url : String)
    (parameters : List (String × String))
    (r1 rL rS r2 : HttpResponse) (rest : World)
    (h1a : 200 ≤ r1.status) (h1b : r1.status ≤ 299) (h1c : loggedOutBody r1.body = true)
    (hdue : cred.fetched < now - 60000)
    (hL : rL.status = 302) (hSa : 200 ≤ rS.status) (hSb : rS.status ≤ 299)
    (h2a : 200 ≤ r2.status) (h2b : r2.status ≤ 299) :
    let T := KOLClient.tryRequestWithLogin u pw now cred url parameters
      (HttpResult.ok r1 :: HttpResult.ok rL :: HttpResult.ok rS :: HttpResult.ok r2 :: rest)
    T.body = (if (r2.body == "" || loggedOutBody r2.body) = true then "" else r2.body) ∧
    T.calls = [Call.page url, Call.loginPost (loginParameters u pw),
               Call.statusGet oldStatusParams, Call.page url] ∧
    T.calls.countP isPage = 2 ∧
    T.calls.countP isLoginPost = 1 ∧
    T.credentials = ⟨now, some (joinCookies rL.setCookie), rS.pwd⟩ := by
  have e1 : KOLClient.makeCredentialedRequest cred url parameters
      (HttpResult.ok r1 :: HttpResult.ok rL :: HttpResult.ok rS :: HttpResult.ok r2 :: rest) =
      ⟨none, HttpResult.ok rL :: HttpResult.ok rS :: HttpResult.ok r2 :: rest,
       [Call.page url]⟩ := by
    simp [KOLClient.makeCredentialedRequest, h1a, h1b, h1c]
  have e2 : KOLClient.logIn u pw now cred
      (HttpResult.ok rL :: HttpResult.ok rS :: HttpResult.ok r2 :: rest) =
      ⟨⟨now, some (joinCookies rL.setCookie), rS.pwd⟩, HttpResult.ok r2 :: rest,
       [Call.loginPost (loginParameters u pw), Call.statusGet oldStatusParams]⟩ := by
    simp [KOLClient.logIn, hdue, hL, hSa, hSb]
  by_cases hb : (r2.body == "" || loggedOutBody r2.body) = true
  · have e3 : KOLClient.makeCredentialedRequest
        ⟨now, some (joinCookies rL.setCookie), rS.pwd⟩ url parameters
        (HttpResult.ok r2 :: rest) = ⟨none, rest, [Call.page url]⟩ := by
      simp [KOLClient.makeCredentialedRequest, h2a, h2b, hb]
    simp [KOLClient.tryRequestWithLogin, e1, e2, e3, hb,
      List.countP_cons, isPage, isLoginPost]
  · have hb' : (r2.body == "" || loggedOutBody r2.body) = false := by
      simpa using hb
    have e3 : KOLClient.makeCredentialedRequest
        ⟨now, some (joinCookies rL.setCookie), rS.pwd⟩ url parameters
        (HttpResult.ok r2 :: rest) = ⟨some r2.body, rest, [Call.page url]⟩ := by
      simp [KOLClient.makeCredentialedRequest, h2a, h2b, hb']
    simp [KOLClient.tryRequestWithLogin, e1, e2, e3, hb',
      List.countP_cons, isPage, isLoginPost]

/-- Witness for C1 amended: stale credentials, a logged-out first
response, a clean handshake and a clean retry produce the retried body. -/
theorem c1_witness :
    (KOLClient.tryRequestWithLogin "u" "p" 1000000 ⟨-1, none, none⟩ "desc_item.php" []
        [HttpResult.ok ⟨200, [], "<title>The Kingdom of Loathing</title>", none⟩,
         HttpResult.ok ⟨302, ["s=2"], "", none⟩,
         HttpResult.ok ⟨200, [], "", some "tok"⟩,
         HttpResult.ok ⟨200, [], "DATA", none⟩]).body =
      (if (("DATA" : String) == "" || loggedOutBody "DATA") = true then "" else "DATA") ∧
    (KOLClient.tryRequestWithLogin "u" "p" 1000000 ⟨-1, none, none⟩ "desc_item.php" []
        [HttpResult.ok ⟨200, [], "<title>The Kingdom of Loathing</title>", none⟩,
         HttpResult.ok ⟨302, ["s=2"], "", none⟩,
         HttpResult.ok ⟨200, [], "", some "tok"⟩,
         HttpResult.ok ⟨200, [], "DATA", none⟩]).calls =
      [Call.page "desc_item.php", Call.loginPost (loginParameters "u" "p"),
       Call.statusGet oldStatusParams, Call.page "desc_item.php"] ∧
    (KOLClient.tryRequestWithLogin "u" "p" 1000000 ⟨-1, none, none⟩ "desc_item.php" []
        [HttpResult.ok ⟨200, [], "<title>The Kingdom of Loathing</title>", none⟩,
         HttpResult.ok ⟨302, ["s=2"], "", none⟩,
         HttpResult.ok ⟨200, [], "", some "tok"⟩,
         HttpResult.ok ⟨200, [], "DATA", none⟩]).calls.countP isPage = 2 ∧
    (KOLClient.tryRequestWithLogin "u" "p" 1000000 ⟨-1, none, none⟩ "desc_item.php" []
        [HttpResult.ok ⟨200, [], "<title>The Kingdom of Loathing</title>", none⟩,
         HttpResult.ok ⟨302, ["s=2"], "", none⟩,
         HttpResult.ok ⟨200, [], "", some "tok"⟩,
         HttpResult.ok ⟨200, [], "DATA", none⟩]).calls.countP isLoginPost = 1 ∧
    (KOLClient.tryRequestWithLogin "u" "p" 1000000 ⟨-1, none, none⟩ "desc_item.php" []
        [HttpResult.ok ⟨200, [], "<title>The Kingdom of Loathing</title>", none⟩,
         HttpResult.ok ⟨302, ["s=2"], "", none⟩,
         HttpResult.ok ⟨200, [], "", some "tok"⟩,
         HttpResult.ok ⟨200, [], "DATA", none⟩]).credentials =
      ⟨1000000, some (joinCookies ["s=2"]), some "tok"⟩ :=
  c1_amended "u" "p" 1000000 ⟨-1, none, none⟩ "desc_item.php" []
    ⟨200, [], "<title>The Kingdom of Loathing</title>", none⟩
    ⟨302, ["s=2"], "", none⟩ ⟨200, [], "", some "tok"⟩ ⟨200, [], "DATA", none⟩ []
    (by decide) (by decide) (by decide) (by decide) (by decide) (by decide) (by decide)
    (by decide) (by decide)

end Oaf
